import Mathlib

/-!
Verification development for the dhan-backup trading dashboard frontend.

The repository is a React client that polls a trading backend for account
state (funds, holdings, positions, orders), derives displayed P&L from
heterogeneous raw records, drives an order place/cancel/exit workflow and
maintains a time-bounded alert feed.  This file gives a shallow embedding
of the core logic:

- JSON field values are modelled by the inductive JVal (numbers and
  strings); an absent or null field is modelled as none : Option JVal.
  The code distinguishes null from undefined only in places none of the
  claims depend on, so the two are conflated.
- JavaScript numeric coercion is modelled explicitly: parseFloat takes the
  longest numeric prefix of a string, Number requires the whole string to
  be numeric (empty string gives 0); a NaN result is modelled as
  none : Option Rat, and arithmetic on Option Rat propagates none.
- The stateful components (fetchAll from the two App drafts, the alert
  feed, the order handlers) are modelled as pure state-transition
  functions over explicit environment records describing each network
  fetch result: Fetch alpha is either a transport error carrying the
  rendered error text, or a response body.
-/

/-- A JSON field value as it occurs in broker or backend records: a number
or a string.  An absent or null field is modelled by none : Option JVal. -/
inductive JVal where
  | num (q : ℚ)
  | str (s : String)
deriving DecidableEq, Repr

/-- JavaScript truthiness of a value: 0 and the empty string are falsy. -/
def jsTruthy : JVal → Bool
  | .num q => if q = 0 then false else true
  | .str s => if s = "" then false else true

/-- Truthiness of a possibly absent value: null and undefined are falsy. -/
def jsTruthyO : Option JVal → Bool
  | none => false
  | some v => jsTruthy v

/-- The nullish-coalescing operator a ?? b. -/
def qq : Option JVal → Option JVal → Option JVal
  | some v, _ => some v
  | none, b => b

/-- Array.prototype.find with the predicate x different from undefined and
null, as used for the candidate-field lists: the first present value. -/
def firstNonNull (l : List (Option JVal)) : Option JVal :=
  (l.filterMap id).head?

/-- The truthy-or operator a or-else b on possibly absent values. -/
def jsOrD (a : Option JVal) (d : JVal) : JVal :=
  if jsTruthyO a then a.getD d else d

/-- Numeric value of a decimal digit character. -/
def digitVal (c : Char) : ℕ := c.toNat - 48

/-- Value of a list of decimal digit characters, most significant first. -/
def digitsToNat (cs : List Char) : ℕ :=
  cs.foldl (fun n c => 10 * n + digitVal c) 0

/-- Split a character list into its leading digits and the rest. -/
def splitDigits (cs : List Char) : List Char × List Char :=
  (cs.takeWhile Char.isDigit, cs.dropWhile Char.isDigit)

/-- Parse an unsigned decimal literal (digits, optionally a dot and more
digits) from the front of a character list, returning the value and the
unconsumed remainder; none when no digits are found. -/
def parseUnsigned (cs : List Char) : Option (ℚ × List Char) :=
  let p := splitDigits cs
  match p.2 with
  | '.' :: r2 =>
    let f := splitDigits r2
    if p.1.isEmpty && f.1.isEmpty then none
    else some ((digitsToNat p.1 : ℚ) + (digitsToNat f.1 : ℚ) / ((10 : ℚ) ^ f.1.length), f.2)
  | _ => if p.1.isEmpty then none else some ((digitsToNat p.1 : ℚ), p.2)

/-- Parse an optionally signed decimal literal from the front of a
character list. -/
def parseSigned (cs : List Char) : Option (ℚ × List Char) :=
  match cs with
  | '-' :: t => (parseUnsigned t).map (fun p => (-p.1, p.2))
  | '+' :: t => parseUnsigned t
  | _ => parseUnsigned cs

/-- JavaScript parseFloat on a string: longest numeric prefix, NaN (none)
when the string does not start with a number. -/
def parseFloatStr (s : String) : Option ℚ :=
  (parseSigned s.toList).map Prod.fst

/-- JavaScript Number on a string: the whole string must be numeric; the
empty string converts to 0. -/
def numberStr (s : String) : Option ℚ :=
  if s = "" then some 0
  else
    match parseSigned s.toList with
    | some (v, []) => some v
    | _ => none

/-- parseFloat applied to a field value. -/
def jsParseFloat : JVal → Option ℚ
  | .num q => some q
  | .str s => parseFloatStr s

/-- Number applied to a field value. -/
def jsNumberV : JVal → Option ℚ
  | .num q => some q
  | .str s => numberStr s

/-- Number applied to a possibly absent value; only used under guards that
ensure the value is present. -/
def jsNumberO : Option JVal → Option ℚ
  | none => some 0
  | some v => jsNumberV v

/-- Addition on NaN-propagating numbers. -/
def oAdd (a b : Option ℚ) : Option ℚ :=
  match a, b with
  | some x, some y => some (x + y)
  | _, _ => none

/-- Subtraction on NaN-propagating numbers. -/
def oSub (a b : Option ℚ) : Option ℚ :=
  match a, b with
  | some x, some y => some (x - y)
  | _, _ => none

/-- Multiplication on NaN-propagating numbers. -/
def oMul (a b : Option ℚ) : Option ℚ :=
  match a, b with
  | some x, some y => some (x * y)
  | _, _ => none

/-- Math.abs on NaN-propagating numbers. -/
def oAbs (a : Option ℚ) : Option ℚ := a.map (fun x => |x|)

/-- Decimal rendering of a rational; integer values render as JavaScript
renders integer numbers, which is the only case the theorems evaluate. -/
def ratToString (q : ℚ) : String :=
  if q.den = 1 then toString q.num else toString q.num ++ "/" ++ toString q.den

/-- String(x) and template-literal interpolation of a possibly absent
value: an absent field renders as the text undefined. -/
def jsString : Option JVal → String
  | none => "undefined"
  | some (.num q) => ratToString q
  | some (.str s) => s

/-- The safeMsg helper of the main App draft: empty for falsy non-zero
values, the string itself for strings, decimal text for numbers. -/
def safeMsg : Option JVal → String
  | none => ""
  | some (.num q) => ratToString q
  | some (.str s) => s

/-- A raw holding record as consumed by the holdings table of the main App
draft: every field the code reads, each possibly absent. -/
structure RawHolding where
  tradingSymbol : Option JVal := none
  segment : Option JVal := none
  securityId : Option JVal := none
  security_id : Option JVal := none
  instrumentId : Option JVal := none
  instrument_id : Option JVal := none
  avgCostPrice : Option JVal := none
  averagePrice : Option JVal := none
  avg_price : Option JVal := none
  avg : Option JVal := none
  averageCost : Option JVal := none
  avgCost : Option JVal := none
  lastTradedPrice : Option JVal := none
  ltp : Option JVal := none
  last_price : Option JVal := none
  lastPrice : Option JVal := none
  totalQty : Option JVal := none
  quantity : Option JVal := none
  qty : Option JVal := none
  unrealisedPnL : Option JVal := none
  unrealized_pnl : Option JVal := none
  pnl : Option JVal := none
  profitLoss : Option JVal := none
  unrealised_pnl : Option JVal := none
  totalCost : Option JVal := none
  cost : Option JVal := none
deriving DecidableEq, Repr

/-- A raw position record as consumed by the positions table of the main
App draft. -/
structure RawPosition where
  tradingSymbol : Option JVal := none
  segment : Option JVal := none
  securityId : Option JVal := none
  security_id : Option JVal := none
  instrumentId : Option JVal := none
  instrument_id : Option JVal := none
  buyAvg : Option JVal := none
  avgPrice : Option JVal := none
  avg : Option JVal := none
  averagePrice : Option JVal := none
  avg_price : Option JVal := none
  avgCostPrice : Option JVal := none
  ltp : Option JVal := none
  lastTradedPrice : Option JVal := none
  last_price : Option JVal := none
  lastPrice : Option JVal := none
  netQty : Option JVal := none
  quantity : Option JVal := none
  qty : Option JVal := none
  netQuantity : Option JVal := none
  unrealisedPnL : Option JVal := none
  unrealized_pnl : Option JVal := none
  pnl : Option JVal := none
  profitLoss : Option JVal := none
  unrealised_pnl : Option JVal := none
  totalCost : Option JVal := none
  cost : Option JVal := none
  notional : Option JVal := none
deriving DecidableEq, Repr

/-- Resolved average cost of a holding: parseFloat of the first present
candidate, parseFloat(0) = 0 when no candidate is present. -/
def holdingAvg (h : RawHolding) : Option ℚ :=
  match firstNonNull [h.avgCostPrice, h.averagePrice, h.avg_price, h.avg, h.averageCost, h.avgCost] with
  | some v => jsParseFloat v
  | none => some 0

/-- Resolved last traded price of a holding. -/
def holdingLtp (h : RawHolding) : Option ℚ :=
  jsParseFloat ((firstNonNull [h.lastTradedPrice, h.ltp, h.last_price, h.lastPrice]).getD (.num 0))

/-- Resolved quantity of a holding. -/
def holdingQtyV (h : RawHolding) : Option ℚ :=
  jsParseFloat ((firstNonNull [h.totalQty, h.quantity, h.qty]).getD (.num 0))

/-- First present broker-provided P&L candidate of a holding. -/
def holdingPnlProvided (h : RawHolding) : Option JVal :=
  firstNonNull [h.unrealisedPnL, h.unrealized_pnl, h.pnl, h.profitLoss, h.unrealised_pnl]

/-- The guard applied to the resolved P&L candidate: present and not the
empty string. -/
def presentNonEmpty : Option JVal → Bool
  | none => false
  | some v => decide (v ≠ JVal.str "")

/-- Displayed P&L of a holding row in the main App draft: the resolved
broker P&L when present and non-empty, else the price-difference
derivation when the average is a number other than 0, else the total-cost
derivation when a truthy total-cost candidate exists, else 0. -/
def holdingPnl (h : RawHolding) : Option ℚ :=
  let p := holdingPnlProvided h
  if presentNonEmpty p then jsNumberO p
  else if holdingAvg h ≠ none ∧ holdingAvg h ≠ some 0 then
    oMul (oSub (holdingLtp h) (holdingAvg h)) (holdingQtyV h)
  else
    let tc := firstNonNull [h.totalCost, h.cost]
    if jsTruthyO tc then oSub (oMul (holdingLtp h) (holdingQtyV h)) (jsNumberO tc)
    else some 0

/-- Resolved average price of a position. -/
def positionAvg (p : RawPosition) : Option ℚ :=
  match firstNonNull [p.buyAvg, p.avgPrice, p.avg, p.averagePrice, p.avg_price, p.avgCostPrice] with
  | some v => jsParseFloat v
  | none => some 0

/-- Resolved last traded price of a position. -/
def positionLtp (p : RawPosition) : Option ℚ :=
  jsParseFloat ((firstNonNull [p.ltp, p.lastTradedPrice, p.last_price, p.lastPrice]).getD (.num 0))

/-- Resolved (signed) net quantity of a position. -/
def positionQtyV (p : RawPosition) : Option ℚ :=
  jsParseFloat ((firstNonNull [p.netQty, p.quantity, p.qty, p.netQuantity]).getD (.num 0))

/-- First present broker-provided P&L candidate of a position. -/
def positionPnlProvided (p : RawPosition) : Option JVal :=
  firstNonNull [p.unrealisedPnL, p.unrealized_pnl, p.pnl, p.profitLoss, p.unrealised_pnl]

/-- Displayed P&L of a position row in the main App draft. -/
def positionPnl (p : RawPosition) : Option ℚ :=
  let pp := positionPnlProvided p
  if presentNonEmpty pp then jsNumberO pp
  else if positionAvg p ≠ none ∧ positionAvg p ≠ some 0 then
    oMul (oSub (positionLtp p) (positionAvg p)) (positionQtyV p)
  else
    let tc := firstNonNull [p.totalCost, p.cost, p.notional]
    if jsTruthyO tc then oSub (oMul (positionLtp p) (positionQtyV p)) (jsNumberO tc)
    else some 0

/-- Claim C1 as stated, for holdings: the P&L equals the first candidate
P&L field that is present, non-null and non-empty whenever such a
candidate exists anywhere in the list; otherwise the price-difference
derivation when the average is nonzero; otherwise the total-cost
derivation whenever a total-cost field is present; otherwise 0. -/
def holdingPnlClaimed (h : RawHolding) : Option ℚ :=
  match ((([h.unrealisedPnL, h.unrealized_pnl, h.pnl, h.profitLoss, h.unrealised_pnl].filter
      (fun x => presentNonEmpty x)).head?).bind id) with
  | some v => jsNumberV v
  | none =>
    if holdingAvg h ≠ none ∧ holdingAvg h ≠ some 0 then
      oMul (oSub (holdingLtp h) (holdingAvg h)) (holdingQtyV h)
    else
      match firstNonNull [h.totalCost, h.cost] with
      | some tc => oSub (oMul (holdingLtp h) (holdingQtyV h)) (jsNumberV tc)
      | none => some 0

/-- Claim C1 as amended, for holdings, following the corrected wording:
the broker branch applies only when the first non-null candidate is
itself non-empty, and the total-cost branch only when the first non-null
total-cost candidate is truthy. -/
def holdingPnlAmended (h : RawHolding) : Option ℚ :=
  let p := firstNonNull [h.unrealisedPnL, h.unrealized_pnl, h.pnl, h.profitLoss, h.unrealised_pnl]
  if p ≠ none ∧ p ≠ some (.str "") then jsNumberO p
  else if holdingAvg h ≠ none ∧ holdingAvg h ≠ some 0 then
    oMul (oSub (holdingLtp h) (holdingAvg h)) (holdingQtyV h)
  else
    let tc := firstNonNull [h.totalCost, h.cost]
    if jsTruthyO tc then oSub (oMul (holdingLtp h) (holdingQtyV h)) (jsNumberO tc)
    else some 0

/-- Claim C1 as amended, for positions. -/
def positionPnlAmended (p : RawPosition) : Option ℚ :=
  let pp := firstNonNull [p.unrealisedPnL, p.unrealized_pnl, p.pnl, p.profitLoss, p.unrealised_pnl]
  if pp ≠ none ∧ pp ≠ some (.str "") then jsNumberO pp
  else if positionAvg p ≠ none ∧ positionAvg p ≠ some 0 then
    oMul (oSub (positionLtp p) (positionAvg p)) (positionQtyV p)
  else
    let tc := firstNonNull [p.totalCost, p.cost, p.notional]
    if jsTruthyO tc then oSub (oMul (positionLtp p) (positionQtyV p)) (jsNumberO tc)
    else some 0

/-- A holding whose first P&L candidate is the empty string while a later
candidate is 5: the code falls through to the derived P&L. -/
def cexHoldingC1 : RawHolding :=
  { unrealisedPnL := some (.str ""), profitLoss := some (.num 5),
    avgCostPrice := some (.num 10), lastTradedPrice := some (.num 12),
    totalQty := some (.num 2) }

/-- The square-off draft opened by the Exit buttons of the holdings and
positions tables: the fields the confirm handler reads. -/
structure ExitIntent where
  source : String
  symbol : Option JVal := none
  segment : JVal := .str "NSE_EQ"
  securityId : Option JVal := none
  qty : Option ℚ := none
  side : String
deriving DecidableEq, Repr

/-- The exit draft built for a holding row: quantity as displayed, side
always SELL. -/
def holdingExitDraft (h : RawHolding) : ExitIntent :=
  { source := "holding"
    symbol := h.tradingSymbol
    segment := jsOrD h.segment (.str "NSE_EQ")
    securityId := firstNonNull [h.securityId, h.security_id, h.instrumentId, h.instrument_id]
    qty := holdingQtyV h
    side := "SELL" }

/-- The exit draft built for a position row: absolute quantity, side SELL
when the signed quantity is positive and BUY otherwise. -/
def positionExitDraft (p : RawPosition) : ExitIntent :=
  let q := positionQtyV p
  { source := "position"
    symbol := p.tradingSymbol
    segment := jsOrD p.segment (.str "NSE_EQ")
    securityId := firstNonNull [p.securityId, p.security_id, p.instrumentId, p.instrument_id]
    qty := oAbs q
    side := match q with
      | some x => if 0 < x then "SELL" else "BUY"
      | none => "BUY" }

/-- An instrument as delivered by symbol search or kept as the current
selection. -/
structure Instrument where
  tradingSymbol : Option JVal := none
  securityId : Option JVal := none
  security_id : Option JVal := none
  segment : Option JVal := none
  lotSize : Option JVal := none
  expiry : Option JVal := none
deriving DecidableEq, Repr

/-- pickInstrument records the chosen search result, overwriting its
security_id field with String(inst.securityId). -/
def pickInstrument (inst : Instrument) : Instrument :=
  { inst with security_id := some (.str (jsString inst.securityId)) }

/-- The security identifier handlePlaceOrder starts from: the camel-case
field, falling back to the snake-case one. -/
def placeSecurityId (sel : Instrument) : Option JVal :=
  qq sel.securityId sel.security_id

/-- The condition under which handlePlaceOrder enters the lazy
resolve-symbol branch: the coalesced security identifier is falsy. -/
def resolveEntered (sel : Instrument) : Bool :=
  !(jsTruthyO (placeSecurityId sel))

/-- Result of a network fetch: a transport error carrying the rendered
error text, or a response body. -/
inductive Fetch (α : Type) where
  | throw (emsg : String)
  | ok (data : α)
deriving DecidableEq, Repr

/-- The body of a place-order response. -/
structure PlaceBody where
  status : Option String := none
  message : Option JVal := none
  rid : Option JVal := none
deriving DecidableEq, Repr

/-- Outcome of a place-order POST: a response, a transport error whose
error object still carried a (truthy) response payload, or a bare
transport error with no payload. -/
inductive PlaceResult where
  | ok (d : PlaceBody)
  | errWithResp (d : PlaceBody)
  | errNoResp
deriving DecidableEq, Repr

/-- Outcome of the lazy resolve-symbol call: either a failure (transport
error or missing inst field, with the rendered failure text), or a
resolved instrument. -/
inductive ResolveResult where
  | fails (rendered : String)
  | resolves (inst : Instrument)
deriving DecidableEq, Repr

/-- The observable effects of one handlePlaceOrder run: messages shown,
whether the resolve call and the order POST happened, and whether the
order-list and account refreshes were triggered. -/
structure PlaceOutcome where
  error : Option String := none
  toast : Option String := none
  marketNotice : JVal := .str ""
  submitted : Bool := false
  succeeded : Bool := false
  resolveCalled : Bool := false
  refreshedOrders : Bool := false
  refreshedAll : Bool := false
deriving DecidableEq, Repr

/-- Effects of the submission stage of handlePlaceOrder, by place result:
success toasts, stores the advisory notice and refreshes; a non-success
response or an error payload surfaces the message with the rid; a bare
transport error surfaces a generic message. -/
def submitOutcome (pres : PlaceResult) : PlaceOutcome :=
  match pres with
  | .ok d =>
    if d.status = some "success" then
      { toast := some "✅ Order placed successfully!"
        marketNotice := jsOrD d.message (.str "")
        submitted := true, succeeded := true
        refreshedOrders := true, refreshedAll := true }
    else
      let msg := "❌ Order failed [rid " ++ jsString d.rid ++ "]: " ++ safeMsg d.message
      { error := some msg, toast := some ("💥 " ++ msg), submitted := true }
  | .errWithResp d =>
      let msg := "❌ Order failed [rid " ++
        (if jsTruthyO d.rid then jsString d.rid else "-") ++ "]: " ++ safeMsg d.message
      { error := some msg, toast := some ("💥 " ++ msg), submitted := true }
  | .errNoResp =>
      let msg := "Network/timeout error while placing order — check backend logs"
      { error := some msg, toast := some ("💥 " ++ msg), submitted := true }

/-- handlePlaceOrder of the main App draft: early return without any
request when no instrument is selected; the resolve-symbol branch when
the coalesced security identifier is falsy; then the order POST. -/
def handlePlaceOrder (sel : Option Instrument) (rres : ResolveResult)
    (pres : PlaceResult) : PlaceOutcome :=
  match sel with
  | none => { toast := some "Please select an instrument from search results first." }
  | some inst =>
    if resolveEntered inst then
      match rres with
      | .fails r =>
        let msg := "❌ Resolve failed: " ++ r
        { error := some msg, toast := some msg, resolveCalled := true }
      | .resolves _ => { submitOutcome pres with resolveCalled := true }
    else submitOutcome pres

/-- A raw order record: the fields the order book and cancel flow read. -/
structure RawOrder where
  orderId : Option JVal := none
  id : Option JVal := none
  clientOrderId : Option JVal := none
  tradingSymbol : Option JVal := none
  securityId : Option JVal := none
  transactionType : Option JVal := none
  side : Option JVal := none
  quantity : Option JVal := none
  qty : Option JVal := none
  orderStatus : Option JVal := none
  status : Option JVal := none
deriving DecidableEq, Repr

/-- A response body of the shape with a data field, as read by the funds,
holdings, positions and orders fetches of the main App draft. -/
structure DataBody (α : Type) where
  data : Option α := none
deriving DecidableEq, Repr

/-- The truthy-or operator on optional strings, as used for backend
messages: an absent or empty message falls back to the default. -/
def jsOrStrD (m : Option String) (d : String) : String :=
  match m with
  | some s => if s = "" then d else s
  | none => d

/-- The body of a cancel-order response. -/
structure CancelBody where
  status : Option String := none
  message : Option String := none
deriving DecidableEq, Repr

/-- Observable effects of one handleCancel run. -/
structure CancelOutcome where
  requests : ℕ := 0
  toast : Option String := none
  refreshedOrders : Bool := false
deriving DecidableEq, Repr

/-- The orders slot and error slot updated by fetchOrders of the main App
draft: a response stores its data array (or an empty list), a transport
error clears the list and records the message. -/
def fetchOrders002 (r : Fetch (DataBody (List RawOrder)))
    (err : Option String) : List RawOrder × Option String :=
  match r with
  | .ok b => (b.data.getD [], err)
  | .throw e => ([], some ("Error fetching orders: " ++ e))

/-- handleCancel of the main App draft: early return when the order id is
falsy or the confirmation dialog is declined; otherwise exactly one
cancel POST; success toasts and refreshes the order list, failure only
toasts. -/
def handleCancel (orderId : Option JVal) (confirmed : Bool)
    (res : Fetch CancelBody) (ordersRes : Fetch (DataBody (List RawOrder)))
    (orders : List RawOrder) (err : Option String) :
    CancelOutcome × List RawOrder × Option String :=
  if jsTruthyO orderId = false then ({}, orders, err)
  else if confirmed = false then ({}, orders, err)
  else
    match res with
    | .ok b =>
      if b.status = some "success" then
        ({ requests := 1, toast := some "Order cancelled ✅", refreshedOrders := true },
         fetchOrders002 ordersRes err)
      else
        ({ requests := 1, toast := some ("Cancel failed: " ++ jsOrStrD b.message "Unknown") },
         orders, err)
    | .throw e =>
      ({ requests := 1, toast := some ("Cancel error: " ++ e) }, orders, err)

/-- Generic nullish coalescing. -/
def qqO {α : Type} : Option α → Option α → Option α
  | some v, _ => some v
  | none, b => b

/-- The backend base URL assumed by the drafts. -/
def BASE_URL : String := "http://127.0.0.1:8000"

/-- The body of a status response: the health field, an optional message
and the two readiness flags the main draft displays. -/
structure StatusBody where
  status : Option String := none
  message : Option String := none
  broker_ready : Bool := false
  instruments_db_current_today : Bool := false
deriving DecidableEq, Repr

/-- The account-state slots owned by the synchronizer of the main App
draft, plus the shared error slot and the orders list owned by the
separate orders loop. -/
structure AppState where
  status : String := "Checking..."
  statusError : Option String := none
  error : Option String := none
  funds : Option JVal := none
  holdings : List RawHolding := []
  positions : List RawPosition := []
  orders : List RawOrder := []
deriving DecidableEq, Repr

/-- One cycle worth of fetch results for the main App draft fetchAll. -/
structure Env002 where
  statusRes : Fetch StatusBody
  fundsRes : Fetch (DataBody JVal)
  holdingsRes : Fetch (DataBody (List RawHolding))
  positionsRes : Fetch (DataBody (List RawPosition))
deriving DecidableEq, Repr

/-- The connected-status display string of the main App draft. -/
def connDisplay (b : StatusBody) : String :=
  "Connected " ++ (if b.broker_ready then "✅" else "⚠️") ++ " " ++
    (if b.instruments_db_current_today then "" else "(Instrument DB outdated)")

/-- The truthy-or-null coercion applied to the status message on the
connected path. -/
def strOrNone (m : Option String) : Option String :=
  match m with
  | some s => if s = "" then none else some s
  | none => none

/-- The single catch handler of the main App draft fetchAll: any transport
error aborts the cycle, marks the connection lost and records a global
unreachable message, leaving all data slots as they were. -/
def catch002 (e : String) (st : AppState) : AppState :=
  let msg := "Backend unreachable: " ++ e
  { st with status := "Not Connected ❌", statusError := some msg, error := some msg }

/-- The status branch of the main App draft fetchAll: connected exactly
for the values ok and degraded. -/
def statusUpdate002 (b : StatusBody) (st : AppState) : AppState :=
  if b.status = some "ok" ∨ b.status = some "degraded" then
    { st with status := connDisplay b, statusError := strOrNone b.message }
  else
    { st with
      status := "Not Connected ❌"
      statusError := some (jsOrStrD b.message ("Backend not reachable at " ++ BASE_URL)) }

/-- fetchAll of the main App draft: status, funds, holdings and positions
fetched sequentially inside one try block, so the first transport error
runs the catch handler and skips the rest of the cycle. -/
def fetchAll002 (env : Env002) (st : AppState) : AppState :=
  match env.statusRes with
  | .throw e => catch002 e st
  | .ok s =>
    let st1 := statusUpdate002 s st
    match env.fundsRes with
    | .throw e => catch002 e st1
    | .ok f =>
      let st2 := { st1 with funds := f.data }
      match env.holdingsRes with
      | .throw e => catch002 e st2
      | .ok h =>
        let st3 := { st2 with holdings := h.data.getD [] }
        match env.positionsRes with
        | .throw e => catch002 e st3
        | .ok p => { st3 with positions := p.data.getD [] }

/-- The body of a funds response in the earlier full draft. -/
structure FundsBody where
  status : Option String := none
  message : Option String := none
  funds : Option JVal := none
deriving DecidableEq, Repr

/-- The funds slot of the earlier full draft: either the funds field of
the body, or, when that field is absent, the whole body. -/
inductive FundsSlot003 where
  | fromField (v : JVal)
  | whole (b : FundsBody)
deriving DecidableEq, Repr

/-- The body of a holdings response in the earlier full draft. -/
structure HoldingsBody003 where
  status : Option String := none
  message : Option String := none
  holdings : Option (List RawHolding) := none
  data : Option (List RawHolding) := none
deriving DecidableEq, Repr

/-- The body of a positions response in the earlier full draft. -/
structure PositionsBody003 where
  status : Option String := none
  message : Option String := none
  positions : Option (List RawPosition) := none
  data : Option (List RawPosition) := none
deriving DecidableEq, Repr

/-- The state slots of the earlier full draft. -/
structure AppState003 where
  status : String := "Checking..."
  statusError : Option String := none
  error : Option String := none
  funds : Option FundsSlot003 := none
  holdings : List RawHolding := []
  positions : List RawPosition := []
  orders : List RawOrder := []
deriving DecidableEq, Repr

/-- One cycle worth of fetch results for the earlier full draft. -/
structure Env003 where
  statusRes : Fetch StatusBody
  fundsRes : Fetch FundsBody
  holdingsRes : Fetch HoldingsBody003
  positionsRes : Fetch PositionsBody003
deriving DecidableEq, Repr

/-- The status branch of the earlier full draft: connected exactly for
the value ok. -/
def status003Update (s : StatusBody) (st : AppState003) : AppState003 :=
  if s.status = some "ok" then
    { st with status := "Connected ✅", statusError := none }
  else
    { st with
      status := "Not Connected ❌"
      statusError := some (jsOrStrD s.message "Backend reported not-ok") }

/-- The funds try block of the earlier full draft. -/
def funds003Update (r : Fetch FundsBody) (st : AppState003) : AppState003 :=
  match r with
  | .throw e => { st with funds := none, error := some ("Error fetching funds: " ++ e) }
  | .ok f =>
    if f.status = some "success" then
      { st with funds := some (match f.funds with
          | some v => .fromField v
          | none => .whole f) }
    else
      { st with funds := none, error := some (f.message.getD "Failed to load funds") }

/-- The holdings try block of the earlier full draft; the payload is
well-typed here, so the Array.isArray guard of the source is always
satisfied. -/
def holdings003Update (r : Fetch HoldingsBody003) (st : AppState003) : AppState003 :=
  match r with
  | .throw _ => { st with holdings := [], error := some "Backend unreachable" }
  | .ok h =>
    if h.status = some "success" then
      { st with holdings := (qqO h.holdings h.data).getD [] }
    else
      { st with holdings := [], error := some (h.message.getD "Dhan API failure") }

/-- The positions try block of the earlier full draft. -/
def positions003Update (r : Fetch PositionsBody003) (st : AppState003) : AppState003 :=
  match r with
  | .throw _ => { st with positions := [], error := some "Backend unreachable" }
  | .ok p =>
    if p.status = some "success" then
      { st with positions := (qqO p.positions p.data).getD [] }
    else
      { st with positions := [], error := some (p.message.getD "Dhan API failure") }

/-- fetchAll of the earlier full draft: a transport error of the status
fetch aborts the cycle, but funds, holdings and positions each sit in
their own try block, so their failures are isolated. -/
def fetchAll003 (env : Env003) (st : AppState003) : AppState003 :=
  match env.statusRes with
  | .throw e =>
    { st with
      status := "Not Connected ❌"
      statusError := some e
      error := some ("Backend unreachable: " ++ e) }
  | .ok s =>
    positions003Update env.positionsRes
      (holdings003Update env.holdingsRes
        (funds003Update env.fundsRes (status003Update s st)))

/-- The funds slot an isolated cycle ends with, as a function of the
funds fetch alone. -/
def funds003Slot (r : Fetch FundsBody) : Option FundsSlot003 :=
  match r with
  | .throw _ => none
  | .ok f =>
    if f.status = some "success" then
      some (match f.funds with | some v => .fromField v | none => .whole f)
    else none

/-- The holdings slot an isolated cycle ends with, as a function of the
holdings fetch alone. -/
def holdings003Slot (r : Fetch HoldingsBody003) : List RawHolding :=
  match r with
  | .throw _ => []
  | .ok h => if h.status = some "success" then (qqO h.holdings h.data).getD [] else []

/-- The positions slot an isolated cycle ends with, as a function of the
positions fetch alone. -/
def positions003Slot (r : Fetch PositionsBody003) : List RawPosition :=
  match r with
  | .throw _ => []
  | .ok p => if p.status = some "success" then (qqO p.positions p.data).getD [] else []

/-- Whether a connection display string reports a connection: it starts
with the word Connected (the not-connected display starts with Not). -/
def reportsConnected (s : String) : Bool :=
  "Connected".toList.isPrefixOf s.toList

/-- An inbound alert as delivered by the alert feed; the display-only
request and response fields do not influence the state evolution and are
summarised by the identifier. -/
structure AlertData where
  id : String := ""
deriving DecidableEq, Repr

/-- An alert enriched at ingest with its expiry instant (milliseconds). -/
structure StampedAlert where
  base : AlertData
  expiry : ℕ
deriving DecidableEq, Repr

/-- The body of an alert-feed response. -/
structure AlertsBody where
  status : Option String := none
  alerts : List AlertData := []
deriving DecidableEq, Repr

/-- The two alert views: the ephemeral live list and the capped log. -/
structure AlertsState where
  alerts : List StampedAlert := []
  logs : List StampedAlert := []
deriving DecidableEq, Repr

/-- The events driving the alert component: a poll completing at a given
time with a given fetch result, and an eviction tick at a given time. -/
inductive AlertsEvent where
  | poll (res : Fetch AlertsBody) (now : ℕ)
  | tick (now : ℕ)
deriving DecidableEq, Repr

/-- The fixed alert lifetime in milliseconds. -/
def TTL : ℕ := 20000

/-- The log cap. -/
def LOG_CAP : ℕ := 200

/-- Stamping a polled batch with its expiry instant. -/
def stamp (now : ℕ) (batch : List AlertData) : List StampedAlert :=
  batch.map (fun a => ⟨a, now + TTL⟩)

/-- One step of the alert component: a failed or non-success poll changes
nothing; a successful poll replaces the live view with the stamped batch
and prepends the same batch to the capped log; a tick keeps exactly the
live entries whose expiry is still in the future. -/
def alertsStep (st : AlertsState) (ev : AlertsEvent) : AlertsState :=
  match ev with
  | .poll (.throw _) _ => st
  | .poll (.ok b) now =>
    if b.status = some "success" then
      let updated := stamp now b.alerts
      { alerts := updated, logs := (updated ++ st.logs).take LOG_CAP }
    else st
  | .tick now => { st with alerts := st.alerts.filter (fun a => decide (now < a.expiry)) }

/-- Running the alert component over a sequence of events. -/
def alertsRun (st : AlertsState) (evs : List AlertsEvent) : AlertsState :=
  evs.foldl alertsStep st

/-- The instant at which an event happens. -/
def eventTime : AlertsEvent → ℕ
  | .poll _ n => n
  | .tick n => n

/-- An event that leaves a given stamped alert in the live view: a failed
poll, a tick before the expiry, or a successful poll whose batch
re-ingests the alert with the same stamp. -/
def keepsAlert (s : StampedAlert) : AlertsEvent → Prop
  | .tick now => now < s.expiry
  | .poll (.throw _) _ => True
  | .poll (.ok b) now => b.status = some "success" → s ∈ stamp now b.alerts

/-- An event that (re-)ingests a given stamped alert. -/
def ingests (s : StampedAlert) : AlertsEvent → Prop
  | .poll (.ok b) now => b.status = some "success" ∧ s ∈ stamp now b.alerts
  | _ => False

/-- Claim C5 as stated: after ingesting an alert at time T, any sequence
of further events ending with a query at time tq keeps the alert visible
when tq is before the expiry, and hides it when tq is at or past the
expiry. -/
def C5stated : Prop :=
  ∀ (st : AlertsState) (b : AlertsBody) (a : AlertData) (T : ℕ)
    (mid : List AlertsEvent) (tq : ℕ),
    b.status = some "success" → a ∈ b.alerts →
    (∀ ev ∈ mid, T ≤ eventTime ev ∧ eventTime ev ≤ tq) →
    (tq < T + TTL →
      (⟨a, T + TTL⟩ : StampedAlert) ∈ (alertsRun (alertsStep st (.poll (.ok b) T)) mid).alerts) ∧
    (T + TTL ≤ tq →
      (⟨a, T + TTL⟩ : StampedAlert) ∉ (alertsRun (alertsStep st (.poll (.ok b) T)) mid).alerts)

/-- A position with net quantity -5, as in the claimed example. -/
def posC8 : RawPosition := { netQty := some (.num (-5)) }

/-- An alert used by the alert-atomicity witness. -/
def aC9 : AlertData := { id := "w9" }

/-- An alert used by the log-shape theorem and its witness. -/
def aC6 : AlertData := { id := "w6" }

/-- An alert used by the TTL theorems. -/
def aC5 : AlertData := { id := "w5" }

/-- An instrument whose securityId is the number 0, a present but falsy
value. -/
def instC10 : Instrument := { securityId := some (.num 0) }

/-- An instrument with a normal securityId string. -/
def instC10w : Instrument := { securityId := some (.str "3499") }

/-- An instrument with no securityId at all. -/
def instC10n : Instrument := {}

/-- The selected instrument of the place-order witness. -/
def selC4 : Instrument :=
  { tradingSymbol := some (.str "TCS"), securityId := some (.str "11536") }

/-- The non-success place response of the claimed scenario. -/
def dC4 : PlaceBody :=
  { status := some "failed", message := some (.str "insufficient margin"),
    rid := some (.str "X1") }

/-- The environment of the isolation counterexample: status ok, funds and
positions deliver data, holdings throws. -/
def cexEnvC2 : Env002 :=
  ⟨.ok { status := some "ok" }, .ok { data := some (.num 1000) },
    .throw "Network Error", .ok { data := some [{}] }⟩

/-- A prior state holding one cached holding. -/
def cexStC2 : AppState := { holdings := [{ tradingSymbol := some (.str "TCS") }] }

/-- The status body of the isolation witness. -/
def cexSC2 : StatusBody := { status := some "ok" }

/-- The funds body of the isolation witness. -/
def cexFC2 : FundsBody := { status := some "success", funds := some (.num 1000) }

/-- The positions body of the isolation witness. -/
def cexPC2 : PositionsBody003 := { status := some "success", positions := some [{}] }

/-- The status environment of the connection counterexample and witness:
the backend answers the health probe with the value success. -/
def envC3success : Env002 := ⟨.ok { status := some "success" }, .ok {}, .ok {}, .ok {}⟩

/-- The earlier draft probed with the value degraded. -/
def envC3degraded : Env003 := ⟨.ok { status := some "degraded" }, .ok {}, .ok {}, .ok {}⟩

/-- A fresh state for the connection theorems. -/
def stC3 : AppState := {}

theorem presentNonEmpty_iff (p : Option JVal) :
    presentNonEmpty p = true ↔ p ≠ none ∧ p ≠ some (.str "") := by
  rcases p with _ | v
  · simp [presentNonEmpty]
  · simp [presentNonEmpty]

theorem holdingPnl_eq_amended (h : RawHolding) : holdingPnl h = holdingPnlAmended h := by
  unfold holdingPnl holdingPnlAmended holdingPnlProvided
  rw [if_congr (presentNonEmpty_iff _) rfl rfl]

theorem positionPnl_eq_amended (p : RawPosition) : positionPnl p = positionPnlAmended p := by
  unfold positionPnl positionPnlAmended positionPnlProvided
  rw [if_congr (presentNonEmpty_iff _) rfl rfl]


/-- C1. For every raw holding or position record, the displayed P&L equals
the broker-provided P&L field when one of the candidate P&L fields is
present (non-null, non-empty); otherwise (lastTradedPrice - avgCostPrice)
x quantity when the resolved average cost is nonzero; otherwise
(lastTradedPrice x quantity) - totalCost when a total-cost field is
present; otherwise 0.  Amended: the broker branch applies only when the
first non-null candidate P&L field is itself non-empty, and the
total-cost branch applies only when the first non-null total-cost
candidate is truthy (nonzero, non-empty); in the remaining cases the
displayed P&L is 0. -/
theorem C1_pnl_corrected :
    (∀ h : RawHolding, holdingPnl h = holdingPnlAmended h) ∧
    (∀ p : RawPosition, positionPnl p = positionPnlAmended p) :=
  ⟨holdingPnl_eq_amended, positionPnl_eq_amended⟩

/-- C1 counterexample: a holding whose first P&L candidate is the empty
string while a later candidate holds 5 displays the derived P&L 4, not
the present non-empty broker value 5 required by the claim. -/
theorem C1_counterexample :
    holdingPnl cexHoldingC1 ≠ holdingPnlClaimed cexHoldingC1 := by
  with_unfolding_all decide

/-- C8. For every exit intent, the square-off draft has side SELL when it
closes a holding, side opposite the signed net quantity when it closes a
position (SELL if the net quantity is positive, BUY if negative), and
quantity equal to the absolute value of the net quantity. -/
theorem C8_exit_confirmed :
    (∀ h : RawHolding, (holdingExitDraft h).side = "SELL") ∧
    (∀ p : RawPosition,
      (positionExitDraft p).qty = oAbs (positionQtyV p) ∧
      ∀ x : ℚ, positionQtyV p = some x →
        (0 < x → (positionExitDraft p).side = "SELL") ∧
        (x < 0 → (positionExitDraft p).side = "BUY")) := by
  refine ⟨fun h => rfl, fun p => ⟨rfl, fun x hx => ⟨fun hpos => ?_, fun hneg => ?_⟩⟩⟩
  · simp only [positionExitDraft, hx]
    rw [if_pos hpos]
  · simp only [positionExitDraft, hx]
    rw [if_neg (not_lt.mpr hneg.le)]

/-- C8 witness: a position with net quantity -5 yields side BUY and
quantity 5. -/
theorem C8_witness :
    (positionExitDraft posC8).side = "BUY" ∧ (positionExitDraft posC8).qty = some 5 := by
  constructor
  · exact ((C8_exit_confirmed.2 posC8).2 (-5) (by with_unfolding_all decide)).2 (by norm_num)
  · rw [(C8_exit_confirmed.2 posC8).1]
    with_unfolding_all decide

/-- C9. An alert poll is atomic: a transport error or a non-success
status leaves both the live view and the log entirely unchanged, and a
successful poll updates both together from the same batch stamped with
the same ingest time. -/
theorem C9_poll_atomic_confirmed :
    (∀ (st : AlertsState) (e : String) (now : ℕ),
      alertsStep st (.poll (.throw e) now) = st) ∧
    (∀ (st : AlertsState) (b : AlertsBody) (now : ℕ), b.status ≠ some "success" →
      alertsStep st (.poll (.ok b) now) = st) ∧
    (∀ (st : AlertsState) (b : AlertsBody) (now : ℕ), b.status = some "success" →
      (alertsStep st (.poll (.ok b) now)).alerts = stamp now b.alerts ∧
      (alertsStep st (.poll (.ok b) now)).logs = (stamp now b.alerts ++ st.logs).take LOG_CAP) := by
  refine ⟨fun st e now => rfl, fun st b now hb => ?_, fun st b now hb => ?_⟩
  · simp [alertsStep, hb]
  · simp [alertsStep, hb]

/-- C9 witness: a non-success poll leaves a concrete state unchanged, and
a successful poll installs the stamped batch as the live view. -/
theorem C9_witness :
    alertsStep { alerts := [⟨aC9, 5⟩], logs := [⟨aC9, 5⟩] }
        (.poll (.ok { status := some "failed" }) 0) =
      { alerts := [⟨aC9, 5⟩], logs := [⟨aC9, 5⟩] } ∧
    (alertsStep {} (.poll (.ok { status := some "success", alerts := [aC9] }) 0)).alerts =
      stamp 0 [aC9] :=
  ⟨C9_poll_atomic_confirmed.2.1 _ _ 0 (by simp),
   (C9_poll_atomic_confirmed.2.2 {} _ 0 rfl).1⟩

/-- Stamped batches are internally ordered: all stamps are equal. -/
theorem stamp_pairwise (now : ℕ) (batch : List AlertData) :
    (stamp now batch).Pairwise (fun x y : StampedAlert => y.expiry ≤ x.expiry) := by
  unfold stamp
  rw [List.pairwise_map]
  induction batch with
  | nil => simp
  | cons a t ih => exact List.Pairwise.cons (fun b _ => le_refl _) ih

/-- Every member of a stamped batch carries the stamp now + TTL. -/
theorem stamp_expiry {now : ℕ} {batch : List AlertData} {s : StampedAlert}
    (h : s ∈ stamp now batch) : s.expiry = now + TTL := by
  unfold stamp at h
  obtain ⟨a, _, rfl⟩ := List.mem_map.1 h
  rfl

/-- A successful poll installs the stamped batch and the truncated log. -/
theorem alertsStep_poll_success (st : AlertsState) (b : AlertsBody) (now : ℕ)
    (hb : b.status = some "success") :
    alertsStep st (.poll (.ok b) now) =
      { alerts := stamp now b.alerts
        logs := (stamp now b.alerts ++ st.logs).take LOG_CAP } := by
  simp [alertsStep, hb]

/-- A non-success poll leaves the state unchanged. -/
theorem alertsStep_poll_nonsuccess (st : AlertsState) (b : AlertsBody) (now : ℕ)
    (hb : b.status ≠ some "success") :
    alertsStep st (.poll (.ok b) now) = st := by
  simp [alertsStep, hb]

/-- One alert step never grows the log beyond the cap. -/
theorem alertsStep_logs_le (st : AlertsState) (ev : AlertsEvent)
    (h : st.logs.length ≤ LOG_CAP) : (alertsStep st ev).logs.length ≤ LOG_CAP := by
  cases ev with
  | poll res now =>
    cases res with
    | throw e => exact h
    | ok b =>
      by_cases hb : b.status = some "success"
      · rw [alertsStep_poll_success st b now hb]
        simp only [List.length_take]
        omega
      · rw [alertsStep_poll_nonsuccess st b now hb]
        exact h
  | tick now => exact h

/-- C6. After every successful poll the log is the new stamped batch
prepended to the previous log, the whole truncated to the cap of 200;
hence the log never exceeds 200 entries; it stays in most-recent-first
stamp order across polls whose ingest times do not decrease; and a batch
polled twice appears twice (no deduplication). -/
theorem C6_log_confirmed :
    (∀ (st : AlertsState) (b : AlertsBody) (now : ℕ), b.status = some "success" →
      (alertsStep st (.poll (.ok b) now)).logs = (stamp now b.alerts ++ st.logs).take LOG_CAP) ∧
    (∀ (st : AlertsState) (evs : List AlertsEvent), st.logs.length ≤ LOG_CAP →
      (alertsRun st evs).logs.length ≤ LOG_CAP) ∧
    (∀ (st : AlertsState) (b : AlertsBody) (now : ℕ), b.status = some "success" →
      st.logs.Pairwise (fun x y : StampedAlert => y.expiry ≤ x.expiry) →
      (∀ x ∈ st.logs, x.expiry ≤ now + TTL) →
      (alertsStep st (.poll (.ok b) now)).logs.Pairwise
        (fun x y : StampedAlert => y.expiry ≤ x.expiry)) ∧
    (alertsRun {} [.poll (.ok { status := some "success", alerts := [aC6] }) 0,
        .poll (.ok { status := some "success", alerts := [aC6] }) 5000]).logs.map
      StampedAlert.base = [aC6, aC6] := by
  refine ⟨fun st b now hb => by simp [alertsStep, hb], ?_, ?_, by with_unfolding_all decide⟩
  · intro st evs
    induction evs generalizing st with
    | nil => exact fun h => h
    | cons ev t ih => exact fun h => ih _ (alertsStep_logs_le st ev h)
  · intro st b now hb hpw hle
    rw [alertsStep_poll_success st b now hb]
    refine List.Pairwise.sublist (List.take_sublist _ _) ?_
    refine List.pairwise_append.2 ⟨stamp_pairwise now b.alerts, hpw, ?_⟩
    intro x hx y hy
    rw [stamp_expiry hx]
    exact hle y hy

/-- C6 witness: from a concrete state below the cap, a successful poll
produces exactly the prepend-and-truncate log, and the bound holds. -/
theorem C6_witness :
    (alertsStep { alerts := [], logs := [⟨aC6, 7⟩] }
        (.poll (.ok { status := some "success", alerts := [aC6] }) 0)).logs =
      (stamp 0 [aC6] ++ [(⟨aC6, 7⟩ : StampedAlert)]).take LOG_CAP ∧
    (alertsRun { alerts := [], logs := [⟨aC6, 7⟩] }
        [.poll (.ok { status := some "success", alerts := [aC6] }) 0]).logs.length ≤ LOG_CAP :=
  ⟨C6_log_confirmed.1 _ _ 0 rfl,
   C6_log_confirmed.2.1 _ _ (by simp [LOG_CAP])⟩

/-- C5 counterexample: the claim fails on the code because a later
successful poll replaces the live view wholesale; an alert ingested at
time 0 is gone from the live view by time 5000, well before its expiry
at 20000. -/
theorem C5_counterexample : ¬ C5stated := by
  intro hcl
  have := (hcl {} { status := some "success", alerts := [aC5] } aC5 0
      [.poll (.ok { status := some "success", alerts := [] }) 5000] 6000 rfl (by simp)
      (by intro ev hev
          rcases List.mem_singleton.1 hev with rfl
          exact ⟨Nat.zero_le _, by norm_num [eventTime]⟩)).1
    (by norm_num [TTL])
  simp [alertsRun, alertsStep, stamp] at this

/-- C5. Amended: an eviction tick at time t keeps exactly the live
entries whose expiry lies strictly in the future; a successful poll
replaces the live view with the freshly stamped batch; an alert already
live survives any sequence of events each of which keeps it (failed or
non-success polls, ticks before its expiry, successful polls whose batch
re-stamps it); and once absent it stays absent under events that do not
re-ingest it. -/
theorem C5_ttl_corrected :
    (∀ (st : AlertsState) (now : ℕ) (s : StampedAlert),
      s ∈ (alertsStep st (.tick now)).alerts ↔ s ∈ st.alerts ∧ now < s.expiry) ∧
    (∀ (st : AlertsState) (b : AlertsBody) (now : ℕ) (s : StampedAlert),
      b.status = some "success" →
      (s ∈ (alertsStep st (.poll (.ok b) now)).alerts ↔ s ∈ stamp now b.alerts)) ∧
    (∀ (st : AlertsState) (evs : List AlertsEvent) (s : StampedAlert),
      s ∈ st.alerts → (∀ ev ∈ evs, keepsAlert s ev) → s ∈ (alertsRun st evs).alerts) ∧
    (∀ (st : AlertsState) (evs : List AlertsEvent) (s : StampedAlert),
      s ∉ st.alerts → (∀ ev ∈ evs, ¬ ingests s ev) → s ∉ (alertsRun st evs).alerts) := by
  have hstep_keep : ∀ (st : AlertsState) (ev : AlertsEvent) (s : StampedAlert),
      s ∈ st.alerts → keepsAlert s ev → s ∈ (alertsStep st ev).alerts := by
    intro st ev s hs hk
    cases ev with
    | poll res now =>
      cases res with
      | throw e => exact hs
      | ok b =>
        by_cases hb : b.status = some "success"
        · rw [alertsStep_poll_success st b now hb]
          exact hk hb
        · rw [alertsStep_poll_nonsuccess st b now hb]
          exact hs
    | tick now =>
      simp only [alertsStep, List.mem_filter]
      exact ⟨hs, by simpa using hk⟩
  have hstep_out : ∀ (st : AlertsState) (ev : AlertsEvent) (s : StampedAlert),
      s ∉ st.alerts → ¬ ingests s ev → s ∉ (alertsStep st ev).alerts := by
    intro st ev s hs hni
    cases ev with
    | poll res now =>
      cases res with
      | throw e => exact hs
      | ok b =>
        by_cases hb : b.status = some "success"
        · rw [alertsStep_poll_success st b now hb]
          intro hmem
          exact hni ⟨hb, hmem⟩
        · rw [alertsStep_poll_nonsuccess st b now hb]
          exact hs
    | tick now =>
      simp only [alertsStep, List.mem_filter]
      intro hmem
      exact hs hmem.1
  refine ⟨?_, ?_, ?_, ?_⟩
  · intro st now s
    simp [alertsStep, List.mem_filter]
  · intro st b now s hb
    simp [alertsStep, hb]
  · intro st evs
    induction evs generalizing st with
    | nil => exact fun s hs _ => hs
    | cons ev t ih =>
      intro s hs hk
      exact ih _ s (hstep_keep st ev s hs (hk ev (by simp)))
        (fun e he => hk e (by simp [he]))
  · intro st evs
    induction evs generalizing st with
    | nil => exact fun s hs _ => hs
    | cons ev t ih =>
      intro s hs hni
      exact ih _ s (hstep_out st ev s hs (hni ev (by simp)))
        (fun e he => hni e (by simp [he]))

/-- C5 witness: a live alert stamped to expire at 20000 survives a tick
at 1000 and a failed poll at 2000. -/
theorem C5_witness :
    (⟨aC5, TTL⟩ : StampedAlert) ∈
      (alertsRun { alerts := [⟨aC5, TTL⟩], logs := [] }
        [.tick 1000, .poll (.throw "boom") 2000]).alerts := by
  apply C5_ttl_corrected.2.2.1
  · simp
  · intro ev hev
    rcases List.mem_cons.1 hev with rfl | h2
    · norm_num [keepsAlert, TTL]
    · rcases List.mem_singleton.1 h2 with rfl
      trivial

/-- The submission stage never reports a resolve call. -/
theorem submitOutcome_resolveCalled (pres : PlaceResult) :
    (submitOutcome pres).resolveCalled = false := by
  cases pres with
  | ok d => by_cases hd : d.status = some "success" <;> simp [submitOutcome, hd]
  | errWithResp d => rfl
  | errNoResp => rfl

/-- The resolve branch after pickInstrument, as a function of the source
securityId field: skipped when the field is absent (the recorded string
is truthy), entered exactly when the field is present but falsy. -/
theorem resolveEntered_pick (inst : Instrument) :
    resolveEntered (pickInstrument inst) =
      match inst.securityId with
      | some v => !(jsTruthy v)
      | none => false := by
  cases hsec : inst.securityId with
  | none =>
    simp only [resolveEntered, placeSecurityId, pickInstrument, hsec, qq,
      jsTruthyO, jsTruthy, jsString]
    decide
  | some v =>
    simp [resolveEntered, placeSecurityId, pickInstrument, hsec, qq, jsTruthyO]

/-- C10. For every instrument chosen via pickInstrument, the recorded
security_id is String(inst.securityId).  Amended: that string is truthy
whenever the source securityId is absent, and the resolve-symbol branch
of handlePlaceOrder is entered for a picked instrument exactly when the
source securityId is present but falsy (the number 0 or the empty
string); when it is not entered, handlePlaceOrder never performs the
resolve call. -/
theorem C10_pick_resolve_corrected (inst : Instrument) :
    (pickInstrument inst).security_id = some (.str (jsString inst.securityId)) ∧
    (inst.securityId = none → jsTruthy (.str (jsString inst.securityId)) = true) ∧
    (resolveEntered (pickInstrument inst) = true ↔
      ∃ v, inst.securityId = some v ∧ jsTruthy v = false) ∧
    (∀ (rres : ResolveResult) (pres : PlaceResult),
      resolveEntered (pickInstrument inst) = false →
      (handlePlaceOrder (some (pickInstrument inst)) rres pres).resolveCalled = false) := by
  refine ⟨rfl, ?_, ?_, ?_⟩
  · intro h
    rw [h]
    decide
  · rw [resolveEntered_pick]
    cases hsec : inst.securityId with
    | none => simp
    | some v => simp [Bool.not_eq_true']
  · intro rres pres hre
    simp only [handlePlaceOrder, hre, Bool.false_eq_true, if_false]
    exact submitOutcome_resolveCalled pres

/-- C10 counterexample: for a search result with securityId 0, the
recorded security_id is the truthy string 0, yet handlePlaceOrder still
enters the resolve branch, because it reads the original securityId
field first. -/
theorem C10_counterexample :
    (pickInstrument instC10).security_id = some (.str "0") ∧
    jsTruthy (.str "0") = true ∧
    resolveEntered (pickInstrument instC10) = true := by
  with_unfolding_all decide

/-- C10 witness: with securityId absent the recorded string is truthy,
and with a normal securityId the resolve call never happens. -/
theorem C10_witness :
    jsTruthy (.str (jsString instC10n.securityId)) = true ∧
    (handlePlaceOrder (some (pickInstrument instC10w)) (.fails "x") .errNoResp).resolveCalled
      = false :=
  ⟨(C10_pick_resolve_corrected instC10n).2.1 rfl,
   (C10_pick_resolve_corrected instC10w).2.2.2 (.fails "x") .errNoResp
     (by with_unfolding_all decide)⟩

/-- C7. cancelOrder issues no request when the orderId is absent.
Amended: it also issues none when the orderId is present but falsy (the
empty string or 0) or when the user declines the confirmation dialog; it
issues exactly one request when the orderId is truthy and the user
confirms; success triggers exactly the fetchOrders refresh, while a
non-success response or a transport error surfaces a message and leaves
the cached orders and error slot unchanged. -/
theorem C7_cancel_corrected :
    (∀ (confirmed : Bool) (res : Fetch CancelBody) (ores : Fetch (DataBody (List RawOrder)))
        (orders : List RawOrder) (err : Option String),
      handleCancel none confirmed res ores orders err = ({}, orders, err)) ∧
    (∀ (oid : Option JVal) (confirmed : Bool) (res : Fetch CancelBody)
        (ores : Fetch (DataBody (List RawOrder)))
        (orders : List RawOrder) (err : Option String), jsTruthyO oid = false →
      handleCancel oid confirmed res ores orders err = ({}, orders, err)) ∧
    (∀ (oid : Option JVal) (res : Fetch CancelBody) (ores : Fetch (DataBody (List RawOrder)))
        (orders : List RawOrder) (err : Option String),
      (handleCancel oid false res ores orders err).1.requests = 0) ∧
    (∀ (oid : Option JVal) (res : Fetch CancelBody) (ores : Fetch (DataBody (List RawOrder)))
        (orders : List RawOrder) (err : Option String), jsTruthyO oid = true →
      (handleCancel oid true res ores orders err).1.requests = 1) ∧
    (∀ (oid : Option JVal) (b : CancelBody) (ores : Fetch (DataBody (List RawOrder)))
        (orders : List RawOrder) (err : Option String), jsTruthyO oid = true →
      b.status = some "success" →
      handleCancel oid true (.ok b) ores orders err =
        ({ requests := 1, toast := some "Order cancelled ✅", refreshedOrders := true },
          fetchOrders002 ores err)) ∧
    (∀ (oid : Option JVal) (b : CancelBody) (ores : Fetch (DataBody (List RawOrder)))
        (orders : List RawOrder) (err : Option String), jsTruthyO oid = true →
      b.status ≠ some "success" →
      handleCancel oid true (.ok b) ores orders err =
        ({ requests := 1, toast := some ("Cancel failed: " ++ jsOrStrD b.message "Unknown") },
          orders, err)) ∧
    (∀ (oid : Option JVal) (e : String) (ores : Fetch (DataBody (List RawOrder)))
        (orders : List RawOrder) (err : Option String), jsTruthyO oid = true →
      handleCancel oid true (.throw e) ores orders err =
        ({ requests := 1, toast := some ("Cancel error: " ++ e) }, orders, err)) := by
  refine ⟨?_, ?_, ?_, ?_, ?_, ?_, ?_⟩
  · intro confirmed res ores orders err
    rfl
  · intro oid confirmed res ores orders err h
    simp [handleCancel, h]
  · intro oid res ores orders err
    by_cases h : jsTruthyO oid = false
    · simp [handleCancel, h]
    · simp [handleCancel, h]
  · intro oid res ores orders err h
    cases res with
    | throw e => simp [handleCancel, h]
    | ok b =>
      by_cases hb : b.status = some "success" <;> simp [handleCancel, h, hb]
  · intro oid b ores orders err h hb
    simp [handleCancel, h, hb]
  · intro oid b ores orders err h hb
    simp [handleCancel, h, hb]
  · intro oid e ores orders err h
    simp [handleCancel, h]

/-- C7 counterexample: the claim promises exactly one request for every
non-absent orderId, but a present orderId with the confirmation declined
produces no request, and so does the present but falsy empty-string
orderId with the confirmation accepted. -/
theorem C7_counterexample :
    ¬ (∀ (oid : Option JVal) (confirmed : Bool) (res : Fetch CancelBody)
        (ores : Fetch (DataBody (List RawOrder)))
        (orders : List RawOrder) (err : Option String),
        oid ≠ none →
        (handleCancel oid confirmed res ores orders err).1.requests = 1) := by
  intro hcl
  have h1 := hcl (some (.str "125")) false (.ok {}) (.ok {}) [] none (by simp)
  have h2 : (handleCancel (some (.str "125")) false (.ok {}) (.ok {}) [] none).1.requests = 0 := by
    with_unfolding_all decide
  rw [h1] at h2
  exact absurd h2 (by decide)

/-- C7 witness: a confirmed cancel of order 125 with a success response
issues one request and refreshes the orders, and a transport error
leaves the cached orders unchanged. -/
theorem C7_witness :
    handleCancel (some (.str "125")) true (.ok { status := some "success" })
        (.ok { data := some [] }) [] none =
      ({ requests := 1, toast := some "Order cancelled ✅", refreshedOrders := true },
        fetchOrders002 (.ok { data := some [] }) none) ∧
    handleCancel (some (.str "125")) true (.throw "boom") (.ok {}) [({} : RawOrder)] none =
      ({ requests := 1, toast := some ("Cancel error: " ++ "boom") },
        [({} : RawOrder)], none) :=
  ⟨C7_cancel_corrected.2.2.2.2.1 (some (.str "125")) { status := some "success" }
      (.ok { data := some [] }) [] none (by decide) rfl,
   C7_cancel_corrected.2.2.2.2.2.2 (some (.str "125")) "boom" (.ok {}) [({} : RawOrder)] none
      (by decide)⟩

/-- Once an instrument with a truthy identifier is selected (or the
resolve step succeeded), handlePlaceOrder reaches the submission stage,
possibly flagging the resolve call. -/
theorem handlePlaceOrder_submits (sel : Instrument) (rres : ResolveResult) (pres : PlaceResult)
    (h : resolveEntered sel = false ∨ ∃ ri, rres = .resolves ri) :
    handlePlaceOrder (some sel) rres pres = submitOutcome pres ∨
    handlePlaceOrder (some sel) rres pres =
      { submitOutcome pres with resolveCalled := true } := by
  by_cases hre : resolveEntered sel = true
  · rcases h with hre2 | ⟨ri, rfl⟩
    · rw [hre2] at hre
      exact absurd hre (by simp)
    · right
      simp [handlePlaceOrder, hre]
  · left
    have hre2 : resolveEntered sel = false := by
      cases hb : resolveEntered sel
      · rfl
      · exact absurd hb hre
    simp [handlePlaceOrder, hre2]

/-- C4. When a place-order attempt reaches submission and ends in a
backend-reported non-success, or in a transport error that carried a
response payload, the workflow ends in Failed, surfaces the backend
message together with the rid, and triggers no order-list or account
refresh; only a successful placement triggers both refreshes. -/
theorem C4_place_failure_confirmed (sel : Instrument) (rres : ResolveResult) (d : PlaceBody)
    (h : resolveEntered sel = false ∨ ∃ ri, rres = .resolves ri) :
    (d.status ≠ some "success" →
      (handlePlaceOrder (some sel) rres (.ok d)).succeeded = false ∧
      (handlePlaceOrder (some sel) rres (.ok d)).refreshedOrders = false ∧
      (handlePlaceOrder (some sel) rres (.ok d)).refreshedAll = false ∧
      (handlePlaceOrder (some sel) rres (.ok d)).error =
        some ("❌ Order failed [rid " ++ jsString d.rid ++ "]: " ++ safeMsg d.message)) ∧
    ((handlePlaceOrder (some sel) rres (.errWithResp d)).succeeded = false ∧
      (handlePlaceOrder (some sel) rres (.errWithResp d)).refreshedOrders = false ∧
      (handlePlaceOrder (some sel) rres (.errWithResp d)).refreshedAll = false ∧
      (handlePlaceOrder (some sel) rres (.errWithResp d)).error =
        some ("❌ Order failed [rid " ++
          (if jsTruthyO d.rid then jsString d.rid else "-") ++ "]: " ++ safeMsg d.message)) ∧
    (d.status = some "success" →
      (handlePlaceOrder (some sel) rres (.ok d)).succeeded = true ∧
      (handlePlaceOrder (some sel) rres (.ok d)).refreshedOrders = true ∧
      (handlePlaceOrder (some sel) rres (.ok d)).refreshedAll = true) := by
  refine ⟨fun hd => ?_, ?_, fun hd => ?_⟩
  · rcases handlePlaceOrder_submits sel rres (.ok d) h with he | he <;>
      rw [he] <;> simp [submitOutcome, hd]
  · rcases handlePlaceOrder_submits sel rres (.errWithResp d) h with he | he <;>
      rw [he] <;> simp [submitOutcome]
  · rcases handlePlaceOrder_submits sel rres (.ok d) h with he | he <;>
      rw [he] <;> simp [submitOutcome, hd]

/-- C4 witness: the response with status failed, message insufficient
margin and rid X1 ends with that message and rid surfaced and triggers
no refresh. -/
theorem C4_witness :
    (handlePlaceOrder (some selC4) (.fails "x") (.ok dC4)).refreshedOrders = false ∧
    (handlePlaceOrder (some selC4) (.fails "x") (.ok dC4)).refreshedAll = false ∧
    (handlePlaceOrder (some selC4) (.fails "x") (.ok dC4)).error =
      some ("❌ Order failed [rid " ++ jsString dC4.rid ++ "]: " ++ safeMsg dC4.message) := by
  have h := (C4_place_failure_confirmed selC4 (.fails "x") dC4
    (Or.inl (by with_unfolding_all decide))).1 (by decide)
  exact ⟨h.2.1, h.2.2.1, h.2.2.2⟩

/-- The status branch of the main draft does not touch the data slots. -/
theorem statusUpdate002_fields (b : StatusBody) (st : AppState) :
    (statusUpdate002 b st).funds = st.funds ∧
    (statusUpdate002 b st).holdings = st.holdings ∧
    (statusUpdate002 b st).positions = st.positions ∧
    (statusUpdate002 b st).orders = st.orders := by
  unfold statusUpdate002
  split <;> simp

/-- Slot-wise effect of the status branch of the earlier draft. -/
theorem status003Update_fields (s : StatusBody) (st : AppState003) :
    (status003Update s st).funds = st.funds ∧
    (status003Update s st).holdings = st.holdings ∧
    (status003Update s st).positions = st.positions ∧
    (status003Update s st).orders = st.orders := by
  unfold status003Update
  split <;> simp

/-- Slot-wise effect of the funds try block of the earlier draft. -/
theorem funds003Update_fields (r : Fetch FundsBody) (st : AppState003) :
    (funds003Update r st).funds = funds003Slot r ∧
    (funds003Update r st).holdings = st.holdings ∧
    (funds003Update r st).positions = st.positions ∧
    (funds003Update r st).orders = st.orders ∧
    (funds003Update r st).status = st.status := by
  cases r with
  | throw e => simp [funds003Update, funds003Slot]
  | ok f =>
    by_cases hf : f.status = some "success" <;>
      simp [funds003Update, funds003Slot, hf]

/-- Slot-wise effect of the holdings try block of the earlier draft. -/
theorem holdings003Update_fields (r : Fetch HoldingsBody003) (st : AppState003) :
    (holdings003Update r st).holdings = holdings003Slot r ∧
    (holdings003Update r st).funds = st.funds ∧
    (holdings003Update r st).positions = st.positions ∧
    (holdings003Update r st).orders = st.orders ∧
    (holdings003Update r st).status = st.status := by
  cases r with
  | throw e => simp [holdings003Update, holdings003Slot]
  | ok h =>
    by_cases hh : h.status = some "success" <;>
      simp [holdings003Update, holdings003Slot, hh]

/-- Slot-wise effect of the positions try block of the earlier draft. -/
theorem positions003Update_fields (r : Fetch PositionsBody003) (st : AppState003) :
    (positions003Update r st).positions = positions003Slot r ∧
    (positions003Update r st).funds = st.funds ∧
    (positions003Update r st).holdings = st.holdings ∧
    (positions003Update r st).orders = st.orders ∧
    (positions003Update r st).status = st.status ∧
    ((positions003Update r st).error = st.error ∨
      (positions003Update r st).positions = []) := by
  cases r with
  | throw e => simp [positions003Update, positions003Slot]
  | ok p =>
    by_cases hp : p.status = some "success" <;>
      simp [positions003Update, positions003Slot, hp]

/-- C2. Amended: in the earlier draft fetchAll, once the status fetch has
returned, each of the funds, holdings and positions slots is a function
of its own fetch result alone (a failure empties only that slot and
records an error message in the shared error slot), so a holdings
transport error next to successful funds and positions still populates
those two; in the main draft fetchAll all four fetches share one try
block, so a holdings transport error leaves holdings and positions at
their previous values, records one global unreachable error and marks
the connection lost; orders live in a separate loop and are untouched by
fetchAll in both drafts. -/
theorem C2_isolation_corrected :
    (∀ (st : AppState003) (s : StatusBody) (fr : Fetch FundsBody)
        (hr : Fetch HoldingsBody003) (pr : Fetch PositionsBody003),
      (fetchAll003 ⟨.ok s, fr, hr, pr⟩ st).funds = funds003Slot fr ∧
      (fetchAll003 ⟨.ok s, fr, hr, pr⟩ st).holdings = holdings003Slot hr ∧
      (fetchAll003 ⟨.ok s, fr, hr, pr⟩ st).positions = positions003Slot pr) ∧
    (∀ (st : AppState003) (s : StatusBody) (f : FundsBody) (p : PositionsBody003) (e : String),
      p.status = some "success" →
      (fetchAll003 ⟨.ok s, .ok f, .throw e, .ok p⟩ st).error = some "Backend unreachable") ∧
    (∀ (env : Env003) (st : AppState003), (fetchAll003 env st).orders = st.orders) ∧
    (∀ (st : AppState) (s : StatusBody) (f : DataBody JVal) (e : String)
        (pr : Fetch (DataBody (List RawPosition))),
      (fetchAll002 ⟨.ok s, .ok f, .throw e, pr⟩ st).holdings = st.holdings ∧
      (fetchAll002 ⟨.ok s, .ok f, .throw e, pr⟩ st).positions = st.positions ∧
      (fetchAll002 ⟨.ok s, .ok f, .throw e, pr⟩ st).error =
        some ("Backend unreachable: " ++ e) ∧
      (fetchAll002 ⟨.ok s, .ok f, .throw e, pr⟩ st).status = "Not Connected ❌") ∧
    (∀ (env : Env002) (st : AppState), (fetchAll002 env st).orders = st.orders) := by
  refine ⟨?_, ?_, ?_, ?_, ?_⟩
  · intro st s fr hr pr
    refine ⟨?_, ?_, ?_⟩
    · show (positions003Update pr (holdings003Update hr
          (funds003Update fr (status003Update s st)))).funds = funds003Slot fr
      rw [(positions003Update_fields pr _).2.1, (holdings003Update_fields hr _).2.1,
        (funds003Update_fields fr _).1]
    · show (positions003Update pr (holdings003Update hr
          (funds003Update fr (status003Update s st)))).holdings = holdings003Slot hr
      rw [(positions003Update_fields pr _).2.2.1, (holdings003Update_fields hr _).1]
    · show (positions003Update pr (holdings003Update hr
          (funds003Update fr (status003Update s st)))).positions = positions003Slot pr
      rw [(positions003Update_fields pr _).1]
  · intro st s f p e hp
    show (positions003Update (.ok p) (holdings003Update (.throw e)
        (funds003Update (.ok f) (status003Update s st)))).error = some "Backend unreachable"
    simp [positions003Update, hp, holdings003Update]
  · intro env st
    rcases env with ⟨sRes, fr, hr, pr⟩
    cases sRes with
    | throw e => rfl
    | ok s =>
      show (positions003Update pr (holdings003Update hr
          (funds003Update fr (status003Update s st)))).orders = st.orders
      rw [(positions003Update_fields pr _).2.2.2.1, (holdings003Update_fields hr _).2.2.2.1,
        (funds003Update_fields fr _).2.2.2.1, (status003Update_fields s st).2.2.2]
  · intro st s f e pr
    show ((catch002 e { statusUpdate002 s st with funds := f.data }).holdings = st.holdings) ∧ _ ∧ _ ∧ _
    refine ⟨?_, ?_, rfl, rfl⟩
    · show (statusUpdate002 s st).holdings = st.holdings
      exact (statusUpdate002_fields s st).2.1
    · show (statusUpdate002 s st).positions = st.positions
      exact (statusUpdate002_fields s st).2.2.1
  · intro env st
    rcases env with ⟨sRes, fr, hr, pr⟩
    cases sRes with
    | throw e => rfl
    | ok s =>
      cases fr with
      | throw e => exact (statusUpdate002_fields s st).2.2.2
      | ok f =>
        cases hr with
        | throw e => exact (statusUpdate002_fields s st).2.2.2
        | ok h =>
          cases pr with
          | throw e => exact (statusUpdate002_fields s st).2.2.2
          | ok p => exact (statusUpdate002_fields s st).2.2.2

/-- C2 counterexample: in the main draft, with the holdings fetch
throwing while status, funds and positions succeed with data, the cycle
neither empties the cached holdings nor populates the fetched
positions. -/
theorem C2_counterexample :
    (fetchAll002 cexEnvC2 cexStC2).holdings ≠ [] ∧
    (fetchAll002 cexEnvC2 cexStC2).positions ≠ [({} : RawPosition)] := by
  with_unfolding_all decide

/-- C2 witness: in the earlier draft, a holdings transport error next to
successful status, funds and positions leaves the unreachable error and
yields exactly the empty holdings slot. -/
theorem C2_witness :
    (fetchAll003 ⟨.ok cexSC2, .ok cexFC2, .throw "Network Error", .ok cexPC2⟩
      ({} : AppState003)).error = some "Backend unreachable" ∧
    (fetchAll003 ⟨.ok cexSC2, .ok cexFC2, .throw "Network Error", .ok cexPC2⟩
      ({} : AppState003)).holdings = holdings003Slot (.throw "Network Error") ∧
    (fetchAll003 ⟨.ok cexSC2, .ok cexFC2, .throw "Network Error", .ok cexPC2⟩
      ({} : AppState003)).positions = positions003Slot (.ok cexPC2) :=
  ⟨C2_isolation_corrected.2.1 {} cexSC2 cexFC2 cexPC2 "Network Error" rfl,
   (C2_isolation_corrected.1 {} cexSC2 (.ok cexFC2) (.throw "Network Error") (.ok cexPC2)).2.1,
   (C2_isolation_corrected.1 {} cexSC2 (.ok cexFC2) (.throw "Network Error") (.ok cexPC2)).2.2⟩

/-- Every connected display string starts with the word Connected. -/
theorem reportsConnected_connDisplay (b : StatusBody) :
    reportsConnected (connDisplay b) = true := by
  unfold connDisplay
  cases b.broker_ready <;> cases b.instruments_db_current_today <;>
    with_unfolding_all decide

/-- C3. Amended: the connection display of the main draft reports
connected exactly when the status field is ok or degraded (not success),
and of the earlier draft exactly when it is ok; a transport failure of
the status fetch, and in the main draft of any fetch of the shared try
block, yields Not Connected; in the not-connected case coming from a
response, the most specific message is kept (the backend message when
truthy, a generic unreachable text otherwise). -/
theorem C3_status_corrected :
    (∀ (st : AppState) (b : StatusBody) (f : DataBody JVal)
        (h : DataBody (List RawHolding)) (p : DataBody (List RawPosition)),
      (reportsConnected (fetchAll002 ⟨.ok b, .ok f, .ok h, .ok p⟩ st).status = true ↔
        (b.status = some "ok" ∨ b.status = some "degraded"))) ∧
    (∀ (st : AppState) (e : String) (fr : Fetch (DataBody JVal))
        (hr : Fetch (DataBody (List RawHolding))) (pr : Fetch (DataBody (List RawPosition))),
      (fetchAll002 ⟨.throw e, fr, hr, pr⟩ st).status = "Not Connected ❌") ∧
    (∀ (st : AppState) (b : StatusBody) (e : String)
        (hr : Fetch (DataBody (List RawHolding))) (pr : Fetch (DataBody (List RawPosition))),
      (fetchAll002 ⟨.ok b, .throw e, hr, pr⟩ st).status = "Not Connected ❌") ∧
    (∀ (st : AppState) (b : StatusBody) (f : DataBody JVal) (e : String)
        (pr : Fetch (DataBody (List RawPosition))),
      (fetchAll002 ⟨.ok b, .ok f, .throw e, pr⟩ st).status = "Not Connected ❌") ∧
    (∀ (st : AppState) (b : StatusBody) (f : DataBody JVal)
        (h : DataBody (List RawHolding)) (e : String),
      (fetchAll002 ⟨.ok b, .ok f, .ok h, .throw e⟩ st).status = "Not Connected ❌") ∧
    (∀ (st : AppState) (b : StatusBody) (f : DataBody JVal)
        (h : DataBody (List RawHolding)) (p : DataBody (List RawPosition)),
      ¬ (b.status = some "ok" ∨ b.status = some "degraded") →
      (fetchAll002 ⟨.ok b, .ok f, .ok h, .ok p⟩ st).statusError =
        some (jsOrStrD b.message ("Backend not reachable at " ++ BASE_URL))) ∧
    (∀ (st : AppState003) (b : StatusBody) (fr : Fetch FundsBody)
        (hr : Fetch HoldingsBody003) (pr : Fetch PositionsBody003),
      (reportsConnected (fetchAll003 ⟨.ok b, fr, hr, pr⟩ st).status = true ↔
        b.status = some "ok")) ∧
    (∀ (st : AppState003) (e : String) (fr : Fetch FundsBody)
        (hr : Fetch HoldingsBody003) (pr : Fetch PositionsBody003),
      (fetchAll003 ⟨.throw e, fr, hr, pr⟩ st).status = "Not Connected ❌") := by
  refine ⟨?_, ?_, ?_, ?_, ?_, ?_, ?_, ?_⟩
  · intro st b f h p
    show reportsConnected (statusUpdate002 b st).status = true ↔ _
    unfold statusUpdate002
    by_cases hb : b.status = some "ok" ∨ b.status = some "degraded"
    · rw [if_pos hb]
      simp [reportsConnected_connDisplay b, hb]
    · rw [if_neg hb]
      constructor
      · intro hc
        have hc2 : reportsConnected "Not Connected ❌" = true := hc
        exact absurd hc2 (by with_unfolding_all decide)
      · intro hc
        exact absurd hc hb
  · intro st e fr hr pr
    rfl
  · intro st b e hr pr
    rfl
  · intro st b f e pr
    rfl
  · intro st b f h e
    rfl
  · intro st b f h p hb
    show (statusUpdate002 b st).statusError = _
    unfold statusUpdate002
    rw [if_neg hb]
  · intro st b fr hr pr
    have hst : (fetchAll003 ⟨.ok b, fr, hr, pr⟩ st).status = (status003Update b st).status := by
      show (positions003Update pr (holdings003Update hr
          (funds003Update fr (status003Update b st)))).status = _
      rw [(positions003Update_fields pr _).2.2.2.2.1, (holdings003Update_fields hr _).2.2.2.2,
        (funds003Update_fields fr _).2.2.2.2]
    rw [hst]
    unfold status003Update
    by_cases hb : b.status = some "ok"
    · rw [if_pos hb]
      simp [hb]
      with_unfolding_all decide
    · rw [if_neg hb]
      constructor
      · intro hc
        have hc2 : reportsConnected "Not Connected ❌" = true := hc
        exact absurd hc2 (by with_unfolding_all decide)
      · intro hc
        exact absurd hc hb
  · intro st e fr hr pr
    rfl

/-- C3 counterexample: the backend reporting success leaves the main
draft not connected, and reporting degraded leaves the earlier draft not
connected, both contradicting the claimed connected set. -/
theorem C3_counterexample :
    (fetchAll002 envC3success stC3).status = "Not Connected ❌" ∧
    (fetchAll003 envC3degraded ({} : AppState003)).status = "Not Connected ❌" := by
  with_unfolding_all decide

/-- C3 witness: a backend reporting ok is displayed as connected, and
after the success response the retained message is the fallback text
naming the base URL. -/
theorem C3_witness :
    reportsConnected (fetchAll002 ⟨.ok { status := some "ok" }, .ok {}, .ok {}, .ok {}⟩
      stC3).status = true ∧
    (fetchAll002 envC3success stC3).statusError =
      some (jsOrStrD ({ status := some "success" } : StatusBody).message
        ("Backend not reachable at " ++ BASE_URL)) :=
  ⟨(C3_status_corrected.1 stC3 { status := some "ok" } {} {} {}).mpr (Or.inl rfl),
   C3_status_corrected.2.2.2.2.2.1 stC3 { status := some "success" } {} {} {}
     (by decide)⟩
